import Mathlib

/-!
Shallow embedding of the screen-capture core of the `webdev-mcp` repository
(`src/take-screenshot.ts`): the display enumerator `getAvailableScreens` and
the capture engine `takeScreenshot`.

External effects (child-process execution, the filesystem, clocks) are
modelled by explicit environment records (`EnumEnv`, `CaptureEnv`) that fix
the outcome of each effectful call site, and each operation is translated as
a pure function from its environment to a run record that carries the
returned value, the external commands issued, the image-library calls made,
and the temporary files still on disk when the call returns.

JavaScript string operations used by the source (`String.prototype.split`,
`trim`, `includes`, and the one regex split `/^\s*\w+:/m`) are given
faithful character-level implementations below.
-/

/-- JS `\s` character class restricted to the ASCII whitespace characters
(space, tab, newline, carriage return, vertical tab, form feed); the only
whitespace that occurs in the data this program parses. -/
def jsSpaceChar (c : Char) : Bool :=
  c = ' ' || c = '\t' || c = '\n' || c = '\r' || c = '\x0b' || c = '\x0c'

/-- JS `\w` character class: ASCII letters, digits and underscore. -/
def jsWordChar (c : Char) : Bool :=
  ('a' ≤ c && c ≤ 'z') || ('A' ≤ c && c ≤ 'Z') || ('0' ≤ c && c ≤ '9') || c = '_'

/-- JS `String.prototype.trim`: strip whitespace from both ends. -/
def jsTrim (s : String) : String :=
  String.mk (((s.data.dropWhile jsSpaceChar).reverse.dropWhile jsSpaceChar).reverse)

/-- Boolean substring test on character lists. -/
def charsContain (sub : List Char) : List Char → Bool
  | [] => sub.isEmpty
  | c :: rest => sub.isPrefixOf (c :: rest) || charsContain sub rest

/-- JS `String.prototype.includes`: substring containment. -/
def jsIncludes (s sub : String) : Bool :=
  charsContain sub.data s.data

/-- Worker for `jsSplit`.  The `Nat` argument counts separator characters
still to be skipped, so the recursion is structural on the character list. -/
def jsSplitAux (sep : List Char) : List Char → Nat → List Char → List String
  | [], _, acc => [String.mk acc.reverse]
  | _ :: rest, k + 1, acc => jsSplitAux sep rest k acc
  | c :: rest, 0, acc =>
    if sep.isPrefixOf (c :: rest) then
      String.mk acc.reverse :: jsSplitAux sep rest (sep.length - 1) []
    else
      jsSplitAux sep rest 0 (c :: acc)

/-- JS `String.prototype.split` with a non-empty literal separator. -/
def jsSplit (s sep : String) : List String :=
  jsSplitAux sep.data s.data 0 []

/-- Length of a match of the regex `^\s*\w+:` starting at the head of `l`
(the caller guarantees the head position is a line start).  `\s` and `\w`
are disjoint, so the greedy runs need no backtracking: a match is a maximal
whitespace run, then a non-empty maximal word run, then a colon. -/
def sectionMatchLen (l : List Char) : Option Nat :=
  let n1 := (l.takeWhile jsSpaceChar).length
  let n2 := ((l.drop n1).takeWhile jsWordChar).length
  if n2 = 0 then none
  else
    match l.drop (n1 + n2) with
    | ':' :: _ => some (n1 + n2 + 1)
    | _ => none

/-- Worker for `splitSections`: JS `split(/^\s*\w+:/m)`.  Arguments: the
remaining characters, the count of separator characters still being skipped,
whether the current position is a line start (for the multiline `^`), and
the reversed accumulator of the current piece.  A separator match always has
length at least two, so skipping is structural. -/
def sectionSplitGo : List Char → Nat → Bool → List Char → List String
  | [], _, _, acc => [String.mk acc.reverse]
  | c :: rest, k + 1, _, acc => sectionSplitGo rest k (c = '\n' || c = '\r') acc
  | c :: rest, 0, lineStart, acc =>
    if lineStart then
      match sectionMatchLen (c :: rest) with
      | some n => String.mk acc.reverse :: sectionSplitGo rest (n - 1) false []
      | none => sectionSplitGo rest 0 (c = '\n' || c = '\r') (c :: acc)
    else
      sectionSplitGo rest 0 (c = '\n' || c = '\r') (c :: acc)

/-- JS `stdout.split(/^\s*\w+:/m)` from `getAvailableScreens`. -/
def splitSections (s : String) : List String :=
  sectionSplitGo s.data 0 true []

/-- One capturable display as returned by the enumerator:
`{ id: number; description: string }`. -/
structure ScreenDescriptor where
  id : Int
  description : String
deriving Repr, DecidableEq

/-- The three per-section parse variables of `getAvailableScreens`
(`displayName`, `resolution`, `displayType`). -/
structure DisplayInfo where
  displayName : String
  resolution : String
  displayType : String
deriving Repr, DecidableEq

/-- `line.split(":")[1]?.trim() || dflt`: the text after the first colon,
trimmed, with `dflt` substituted when the piece is missing or trims to the
empty string (JS `||` treats `""` and `undefined` as falsy). -/
def splitField (line : String) (dflt : String) : String :=
  match (jsSplit line ":").get? 1 with
  | none => dflt
  | some v => if jsTrim v = "" then dflt else jsTrim v

/-- The body of the `for (const line of lines)` loop of
`getAvailableScreens` (source lines 162-173): an if/else-if chain that
assigns one of the three fields from the current line. -/
def scanLine (info : DisplayInfo) (line : String) : DisplayInfo :=
  if jsIncludes line "Display Type:" || jsIncludes line "Type:" then
    { info with displayType := splitField line "Unknown" }
  else if jsIncludes line "Resolution:" then
    { info with resolution := splitField line "" }
  else if jsIncludes line "Name:" then
    { info with displayName := splitField line "" }
  else
    info

/-- The whole extraction loop: fold `scanLine` over the section's lines
starting from three empty fields. -/
def extractDisplayInfo (lines : List String) : DisplayInfo :=
  lines.foldl scanLine ⟨"", "", ""⟩

/-- Build one section's description (source lines 154-179): split the
section into trimmed lines, run the extraction loop, prefer
`displayName`, then `displayType`, then `"Display"`, and append
`" (resolution)"` when a resolution was found. -/
def describeSection (sec : String) : String :=
  let lines := (jsSplit sec "\n").map jsTrim
  let info := extractDisplayInfo lines
  let base :=
    if info.displayName = "" then
      if info.displayType = "" then "Display" else info.displayType
    else info.displayName
  if info.resolution = "" then base else base ++ " (" ++ info.resolution ++ ")"

/-- The filtered display sections (source lines 137-144): regex-split the
introspection output and keep the pieces mentioning display data. -/
def darwinSections (stdout : String) : List String :=
  (splitSections stdout).filter (fun sec =>
    jsIncludes sec "Display Type" || jsIncludes sec "Resolution" || jsIncludes sec "Type:")

/-- The indexed `for` loop over sections (source lines 153-186): descriptor
ids are `i + 1` for the section at 0-based index `i`. -/
def buildDisplays : List String → Nat → List ScreenDescriptor
  | [], _ => []
  | sec :: rest, i => ⟨(i : Int) + 1, describeSection sec⟩ :: buildDisplays rest (i + 1)

/-- The structured parse result, including the empty-list fallback push of
source lines 189-191. -/
def darwinStructuredDisplays (stdout : String) : List ScreenDescriptor :=
  let displays := buildDisplays (darwinSections stdout) 0
  if displays.length = 0 then [⟨1, "Main Display"⟩] else displays

/-- Source lines 200-202: the resolution lines of the rescan command's
output. -/
def grepResolutionLines (g : String) : List String :=
  (jsSplit g "\n").filter (fun line => jsIncludes line "Resolution")

/-- The rebuild loop of source lines 209-219: descriptor `i` gets id `i + 1`
and is labeled `Main Display (resolution)` at index 0 and
`External Display i (resolution)` elsewhere. -/
def rebuildFromResolutions : List String → Nat → List ScreenDescriptor
  | [], _ => []
  | r :: rest, i =>
    ⟨(i : Int) + 1,
      if i = 0 then "Main Display (" ++ splitField r "" ++ ")"
      else "External Display " ++ toString i ++ " (" ++ splitField r "" ++ ")"⟩
      :: rebuildFromResolutions rest (i + 1)

/-- The introspection command of source line 119. -/
def profilerCmd : String := "system_profiler SPDisplaysDataType"

/-- The rescan command of source line 198. -/
def grepCmd : String := "system_profiler SPDisplaysDataType | grep Resolution"

/-- The whole Platform A (`darwin`) branch of `getAvailableScreens` after
the introspection command succeeded with output `stdout` (source lines
122-226).  `grepOut` is the outcome of the rescan command when it is run
(`none` models the command failing; its failure is caught by the inner
`catch` of lines 221-223, which keeps the already-built list).  Returns the
descriptor list and the extra external commands issued. -/
def darwinEnumerate (stdout : String) (grepOut : Option String) :
    List ScreenDescriptor × List (String × Int) :=
  let displayData := (jsSplit stdout "Graphics/Displays:").filter
    (fun s => (jsTrim s).length > 0)
  if displayData.length = 0 then ([⟨1, "Main Display"⟩], [])
  else if (darwinSections stdout).length = 0 then ([⟨1, "Main Display"⟩], [])
  else
    let displays := darwinStructuredDisplays stdout
    if displays.length ≤ 1 then
      match grepOut with
      | none => (displays, [(grepCmd, 0)])
      | some g =>
        let res := grepResolutionLines g
        if res.length > 1 then (rebuildFromResolutions res 0, [(grepCmd, 0)])
        else (displays, [(grepCmd, 0)])
    else (displays, [])

/-- Environment of one `getAvailableScreens` call: the `os.platform()` tag
and the outcome of each external command it may issue (`none` = the child
process fails/throws). -/
structure EnumEnv where
  platform : String
  profilerOutput : Option String
  grepOutput : Option String
deriving Repr, DecidableEq

/-- The placeholder descriptor returned on Platform B (`win32`) and
Platform C (`linux`). -/
def placeholderScreen : ScreenDescriptor :=
  ⟨0, "Primary Screen (multi-screen selection not supported yet)"⟩

/-- The `try` body of `getAvailableScreens` (source lines 113-251): returns
either the descriptor list or the thrown error's message, together with the
external commands issued (a command counts as issued even when it fails). -/
def getAvailableScreensTry (env : EnumEnv) :
    Except String (List ScreenDescriptor) × List (String × Int) :=
  if env.platform = "darwin" then
    match env.profilerOutput with
    | none => (.error "profiler command failed", [(profilerCmd, 0)])
    | some stdout =>
      let p := darwinEnumerate stdout env.grepOutput
      (.ok p.1, (profilerCmd, 0) :: p.2)
  else if env.platform = "win32" then (.ok [placeholderScreen], [])
  else if env.platform = "linux" then (.ok [placeholderScreen], [])
  else (.error ("Unsupported platform: " ++ env.platform), [])

/-- `getAvailableScreens` with its outer `catch` (source lines 252-255):
any error becomes the synthetic `Main Display` fallback.  Returns the
descriptor list and the external commands issued. -/
def getAvailableScreensRun (env : EnumEnv) :
    List ScreenDescriptor × List (String × Int) :=
  match getAvailableScreensTry env with
  | (.ok l, cs) => (l, cs)
  | (.error _, cs) => ([⟨1, "Main Display"⟩], cs)

/-- The value `getAvailableScreens` returns to its caller. -/
def getAvailableScreens (env : EnumEnv) : List ScreenDescriptor :=
  (getAvailableScreensRun env).1

/-- The options record of `takeScreenshot` (source lines 16-23).  Only
`screenId` and `timeout` are read by the body; the others are accepted but
unused. -/
structure CaptureOptions where
  width : Option Int
  height : Option Int
  fullPage : Option Bool
  waitForSelector : Option String
  timeout : Option Int
  screenId : Option Int
deriving Repr, DecidableEq

/-- Source line 26: `options.screenId !== undefined ? options.screenId : 1`. -/
def resolveScreenId (o : Option Int) : Int :=
  match o with
  | some s => s
  | none => 1

/-- Source line 64: `options.timeout || 0` (JS `||`: `undefined` and `0` are
falsy, so both yield `0`, which `exec` treats as "no timeout"). -/
def resolveTimeout (o : Option Int) : Int :=
  match o with
  | some t => if t = 0 then 0 else t
  | none => 0

/-- Environment of one `takeScreenshot` call: the platform tag, the outcomes
of the enumerator's commands (for the Platform A validation step), the temp
directory and the two `Date.now()` readings, and the outcome of each
effectful call site of the body, in source order.  A `false` outcome models
that call site throwing; `rawBytes` / `resizedBytes` are the abstract byte
contents the two file reads would produce. -/
structure CaptureEnv where
  platform : String
  profilerOutput : Option String
  grepOutput : Option String
  tmpdir : String
  now1 : Nat
  now2 : Nat
  execOk : Bool
  rawBytes : String
  resizeOk : Bool
  resizedBytes : String
  unlinkCapturedOk : Bool
  readResizedOk : Bool
  unlinkResizedOk : Bool
  readCapturedOk : Bool
  unlinkFinalOk : Bool
deriving Repr, DecidableEq

/-- The enumerator environment visible to the `getAvailableScreens` call of
source line 38. -/
def enumEnvOf (env : CaptureEnv) : EnumEnv :=
  ⟨env.platform, env.profilerOutput, env.grepOutput⟩

/-- Source line 30: `path.join(tmpDir, `screenshot-${Date.now()}.png`)`. -/
def capturePath (env : CaptureEnv) : String :=
  env.tmpdir ++ "/screenshot-" ++ toString env.now1 ++ ".png"

/-- Source lines 68-71: the second temp path for the resized image. -/
def resizedPathOf (env : CaptureEnv) : String :=
  env.tmpdir ++ "/screenshot-resized-" ++ toString env.now2 ++ ".png"

/-- One invocation of the `sharp` image library (source lines 73-78): the
source and destination paths, the target canvas, the fit mode and the
padding colour. -/
structure SharpCall where
  src : String
  dst : String
  width : Nat
  height : Nat
  fit : String
  bgR : Nat
  bgG : Nat
  bgB : Nat
  bgA : Nat
deriving Repr, DecidableEq

/-- Models Node `Buffer.toString("base64")` (external library code, not part
of this repository) as an abstract injective encoder of the abstract byte
contents. -/
def base64Encode (bytes : String) : String :=
  "base64:" ++ bytes

/-- The outcome of one `takeScreenshot` invocation: the returned value or
thrown error message, every external command issued with its timeout (in
order: the enumerator's commands, then the capture command), the capture
command execution of source line 64 (if reached), the `sharp` calls made,
the temp files created by this invocation that are still on disk when the
call returns, and whether the missing-display warning of source line 48 was
logged. -/
structure CaptureRun where
  result : Except String String
  cmds : List (String × Int)
  exec : Option (String × Int)
  sharpCalls : List SharpCall
  leftover : List String
  warned : Bool
deriving Repr

/-- The Platform B capture command of source line 55. -/
def winCaptureCmd (screenshotPath : String) : String :=
  "powershell -command \"Add-Type -AssemblyName System.Windows.Forms; [System.Windows.Forms.SendKeys]::SendWait(\x27{PRTSC}\x27); Start-Sleep -Milliseconds 500; $img = [System.Windows.Forms.Clipboard]::GetImage(); $img.Save(\x27" ++ screenshotPath ++ "\x27)\""

/-- Source lines 63-100: execute the chosen capture command, then either the
resize/encode path (`screenId === 2`) or the plain read/encode path, with
the wrapping `catch` of lines 101-106 turning any throw into a
`Failed to capture screenshot: ...` error.  Each effectful call site
consults its outcome field of `env`; when a call site throws, execution
jumps to the `catch` with the files created so far still on disk (the
`catch` performs no cleanup). -/
def execAndFinish (env : CaptureEnv) (screenId : Int) (screenshotPath : String)
    (enumCmds : List (String × Int)) (cmd : String) (t : Int) (warned : Bool) :
    CaptureRun :=
  let cmds := enumCmds ++ [(cmd, t)]
  let ex := some (cmd, t)
  if env.execOk = false then
    ⟨.error "Failed to capture screenshot: capture command failed", cmds, ex, [], [], warned⟩
  else if screenId = 2 then
    let rp := resizedPathOf env
    let call : SharpCall := ⟨screenshotPath, rp, 819, 1456, "contain", 255, 255, 255, 1⟩
    if env.resizeOk = false then
      ⟨.error "Failed to capture screenshot: image resize failed", cmds, ex, [call],
        [screenshotPath], warned⟩
    else if env.unlinkCapturedOk = false then
      ⟨.error "Failed to capture screenshot: unlink failed", cmds, ex, [call],
        [screenshotPath, rp], warned⟩
    else if env.readResizedOk = false then
      ⟨.error "Failed to capture screenshot: file read failed", cmds, ex, [call],
        [rp], warned⟩
    else if env.unlinkResizedOk = false then
      ⟨.error "Failed to capture screenshot: unlink failed", cmds, ex, [call],
        [rp], warned⟩
    else
      ⟨.ok (base64Encode env.resizedBytes), cmds, ex, [call], [], warned⟩
  else if env.readCapturedOk = false then
    ⟨.error "Failed to capture screenshot: file read failed", cmds, ex, [],
      [screenshotPath], warned⟩
  else if env.unlinkFinalOk = false then
    ⟨.error "Failed to capture screenshot: unlink failed", cmds, ex, [],
      [screenshotPath], warned⟩
  else
    ⟨.ok (base64Encode env.rawBytes), cmds, ex, [], [], warned⟩

/-- `takeScreenshot` (source lines 14-107): resolve the screen id, allocate
the temp path, build the platform-specific capture command (consulting the
enumerator on Platform A), then run `execAndFinish`.  The `url` parameter is
accepted and never read, as in the source. -/
def takeScreenshot (env : CaptureEnv) (url : String) (options : CaptureOptions) :
    CaptureRun :=
  let screenId := resolveScreenId options.screenId
  let screenshotPath := capturePath env
  let t := resolveTimeout options.timeout
  if env.platform = "darwin" then
    let enumRun := getAvailableScreensRun (enumEnvOf env)
    let displayExists := enumRun.1.any (fun s => s.id == screenId)
    if displayExists = true ∨ screenId = 1 then
      execAndFinish env screenId screenshotPath enumRun.2
        ("screencapture -D " ++ toString screenId ++ " -x \"" ++ screenshotPath ++ "\"")
        t false
    else
      execAndFinish env screenId screenshotPath enumRun.2
        ("screencapture -x \"" ++ screenshotPath ++ "\"") t true
  else if env.platform = "win32" then
    execAndFinish env screenId screenshotPath [] (winCaptureCmd screenshotPath) t false
  else if env.platform = "linux" then
    execAndFinish env screenId screenshotPath []
      ("import -window root \"" ++ screenshotPath ++ "\"") t false
  else
    { result := .error ("Failed to capture screenshot: Unsupported platform: " ++ env.platform),
      cmds := [], exec := none, sharpCalls := [], leftover := [], warned := false }

/-! ## Helper lemmas -/

theorem execAndFinish_exec (env : CaptureEnv) (sid : Int) (p : String)
    (ec : List (String × Int)) (cmd : String) (t : Int) (w : Bool) :
    (execAndFinish env sid p ec cmd t w).exec = some (cmd, t) := by
  unfold execAndFinish
  dsimp only
  repeat' split
  all_goals rfl

theorem execAndFinish_cmds (env : CaptureEnv) (sid : Int) (p : String)
    (ec : List (String × Int)) (cmd : String) (t : Int) (w : Bool) :
    (execAndFinish env sid p ec cmd t w).cmds = ec ++ [(cmd, t)] := by
  unfold execAndFinish
  dsimp only
  repeat' split
  all_goals rfl

theorem execAndFinish_warned (env : CaptureEnv) (sid : Int) (p : String)
    (ec : List (String × Int)) (cmd : String) (t : Int) (w : Bool) :
    (execAndFinish env sid p ec cmd t w).warned = w := by
  unfold execAndFinish
  dsimp only
  repeat' split
  all_goals rfl

theorem execAndFinish_ok_leftover (env : CaptureEnv) (sid : Int) (p : String)
    (ec : List (String × Int)) (cmd : String) (t : Int) (w : Bool) (d : String)
    (h : (execAndFinish env sid p ec cmd t w).result = .ok d) :
    (execAndFinish env sid p ec cmd t w).leftover = [] := by
  unfold execAndFinish at h ⊢
  dsimp only at h ⊢
  repeat' split at h
  all_goals simp_all

theorem execAndFinish_sharp_ne2 (env : CaptureEnv) (sid : Int) (p : String)
    (ec : List (String × Int)) (cmd : String) (t : Int) (w : Bool)
    (h : sid ≠ 2) :
    (execAndFinish env sid p ec cmd t w).sharpCalls = [] := by
  unfold execAndFinish
  dsimp only
  repeat' split
  all_goals simp_all

theorem execAndFinish_sharp_2 (env : CaptureEnv) (sid : Int) (p : String)
    (ec : List (String × Int)) (cmd : String) (t : Int) (w : Bool)
    (h : sid = 2) (hx : env.execOk = true) :
    (execAndFinish env sid p ec cmd t w).sharpCalls =
      [⟨p, resizedPathOf env, 819, 1456, "contain", 255, 255, 255, 1⟩] := by
  unfold execAndFinish
  dsimp only
  repeat' split
  all_goals simp_all

theorem execAndFinish_ok_val_2 (env : CaptureEnv) (sid : Int) (p : String)
    (ec : List (String × Int)) (cmd : String) (t : Int) (w : Bool) (d : String)
    (h : sid = 2) (hr : (execAndFinish env sid p ec cmd t w).result = .ok d) :
    d = base64Encode env.resizedBytes := by
  unfold execAndFinish at hr
  dsimp only at hr
  repeat' split at hr
  all_goals simp_all

theorem execAndFinish_ok_val_ne2 (env : CaptureEnv) (sid : Int) (p : String)
    (ec : List (String × Int)) (cmd : String) (t : Int) (w : Bool) (d : String)
    (h : sid ≠ 2) (hr : (execAndFinish env sid p ec cmd t w).result = .ok d) :
    d = base64Encode env.rawBytes := by
  unfold execAndFinish at hr
  dsimp only at hr
  repeat' split at hr
  all_goals simp_all

theorem execAndFinish_execFail_leftover (env : CaptureEnv) (sid : Int) (p : String)
    (ec : List (String × Int)) (cmd : String) (t : Int) (w : Bool)
    (h : env.execOk = false) :
    (execAndFinish env sid p ec cmd t w).leftover = [] := by
  unfold execAndFinish
  dsimp only
  repeat' split
  all_goals simp_all

theorem takeScreenshot_exec_timeout (env : CaptureEnv) (url : String)
    (opts : CaptureOptions) (c : String) (t : Int)
    (h : (takeScreenshot env url opts).exec = some (c, t)) :
    t = resolveTimeout opts.timeout := by
  unfold takeScreenshot at h
  dsimp only at h
  repeat' split at h
  all_goals simp_all [execAndFinish_exec]

/-! ## Claims -/

/-- C8: for every capture invocation, when the `screenId` option is absent
the engine uses screen id 1 (the whole run is the same as with
`screenId := 1`), and when the `timeout` option is absent or zero the
capture command is executed with timeout value 0, which `exec` treats as
"no timeout" (unbounded wait); any positive timeout value is passed through
and bounds the command's execution. -/
theorem c8_defaults (env : CaptureEnv) (url : String) (opts : CaptureOptions) :
    (opts.screenId = none →
      takeScreenshot env url opts =
        takeScreenshot env url
          ⟨opts.width, opts.height, opts.fullPage, opts.waitForSelector, opts.timeout, some 1⟩)
    ∧ ((opts.timeout = none ∨ opts.timeout = some 0) →
      ∀ c t, (takeScreenshot env url opts).exec = some (c, t) → t = 0)
    ∧ (∀ tv, opts.timeout = some tv → 0 < tv →
      ∀ c t, (takeScreenshot env url opts).exec = some (c, t) → t = tv) := by
  refine ⟨?_, ?_, ?_⟩
  · intro h
    unfold takeScreenshot
    rw [h]
    rfl
  · intro h c t hex
    have := takeScreenshot_exec_timeout env url opts c t hex
    rcases h with h | h <;> simp [h, resolveTimeout] at this <;> exact this
  · intro tv htv hpos c t hex
    have := takeScreenshot_exec_timeout env url opts c t hex
    have hne : tv ≠ 0 := by omega
    simp [htv, resolveTimeout, hne] at this
    exact this

theorem c8_defaults_witness :
    (takeScreenshot ⟨"linux", none, none, "/tmp", 5, 6, true, "RAW", true, "RSZ",
        true, true, true, true, true⟩ ""
      ⟨none, none, none, none, none, none⟩ =
     takeScreenshot ⟨"linux", none, none, "/tmp", 5, 6, true, "RAW", true, "RSZ",
        true, true, true, true, true⟩ ""
      ⟨none, none, none, none, none, some 1⟩)
    ∧ (∀ c t,
        (takeScreenshot ⟨"linux", none, none, "/tmp", 5, 6, true, "RAW", true, "RSZ",
            true, true, true, true, true⟩ ""
          ⟨none, none, none, none, none, none⟩).exec = some (c, t) → t = 0)
    ∧ (∀ c t,
        (takeScreenshot ⟨"linux", none, none, "/tmp", 5, 6, true, "RAW", true, "RSZ",
            true, true, true, true, true⟩ ""
          ⟨none, none, none, none, some 9, none⟩).exec = some (c, t) → t = 9) :=
  ⟨(c8_defaults ⟨"linux", none, none, "/tmp", 5, 6, true, "RAW", true, "RSZ",
      true, true, true, true, true⟩ "" ⟨none, none, none, none, none, none⟩).1 rfl,
   (c8_defaults ⟨"linux", none, none, "/tmp", 5, 6, true, "RAW", true, "RSZ",
      true, true, true, true, true⟩ "" ⟨none, none, none, none, none, none⟩).2.1
      (Or.inl rfl),
   fun c t h =>
     (c8_defaults ⟨"linux", none, none, "/tmp", 5, 6, true, "RAW", true, "RSZ",
        true, true, true, true, true⟩ "" ⟨none, none, none, none, some 9, none⟩).2.2
        9 rfl (by decide) c t h⟩

/-- C9: the capture run depends only on the `screenId` and `timeout`
options (plus the environment): two invocations whose options agree on
those two fields, whatever their `url`, `width`, `height`, `fullPage` and
`waitForSelector`, produce identical runs (same commands, same resize
decision, same returned value). -/
theorem c9_options_noninterference (env : CaptureEnv) (url url2 : String)
    (o o2 : CaptureOptions) (hs : o.screenId = o2.screenId)
    (ht : o.timeout = o2.timeout) :
    takeScreenshot env url o = takeScreenshot env url2 o2 := by
  unfold takeScreenshot
  rw [hs, ht]

theorem c9_options_noninterference_witness :
    takeScreenshot ⟨"linux", none, none, "/tmp", 5, 6, true, "RAW", true, "RSZ",
        true, true, true, true, true⟩ "http://a"
      ⟨some 100, some 200, some true, some "nav", some 7, some 1⟩ =
    takeScreenshot ⟨"linux", none, none, "/tmp", 5, 6, true, "RAW", true, "RSZ",
        true, true, true, true, true⟩ "http://b"
      ⟨none, none, none, none, some 7, some 1⟩ :=
  c9_options_noninterference _ "http://a" "http://b" _ _ rfl rfl

/-- C1 counterexample: on an unrecognized platform (`"plan9"`) the
enumeration operation does NOT fail with an `UnsupportedPlatform` error, as
the claim asserts: the error is raised internally (first conjunct) but is
swallowed by the enumerator's own `catch`, and the operation returns the
synthetic `Main Display` descriptor list normally (second conjunct). -/
theorem c1_counterexample :
    (getAvailableScreensTry ⟨"plan9", none, none⟩).1 =
      .error "Unsupported platform: plan9"
    ∧ getAvailableScreensRun ⟨"plan9", none, none⟩ = ([⟨1, "Main Display"⟩], []) :=
  ⟨rfl, rfl⟩

/-- C1 amended: for every platform tag not among the three supported
platforms, the capture operation fails — with the `Unsupported platform`
error wrapped in the engine's `Failed to capture screenshot` error — before
any external command is executed; the enumeration operation also raises
`UnsupportedPlatform` internally and issues no external command, but its
outer `catch` converts the error into the synthetic
`[{id: 1, description: "Main Display"}]` result instead of failing. -/
theorem c1_amended (env : CaptureEnv) (ee : EnumEnv) (url : String)
    (opts : CaptureOptions)
    (h1 : env.platform ≠ "darwin") (h2 : env.platform ≠ "win32")
    (h3 : env.platform ≠ "linux")
    (he1 : ee.platform ≠ "darwin") (he2 : ee.platform ≠ "win32")
    (he3 : ee.platform ≠ "linux") :
    (takeScreenshot env url opts).result =
      .error ("Failed to capture screenshot: Unsupported platform: " ++ env.platform)
    ∧ (takeScreenshot env url opts).cmds = []
    ∧ (takeScreenshot env url opts).exec = none
    ∧ getAvailableScreensRun ee = ([⟨1, "Main Display"⟩], []) := by
  unfold takeScreenshot getAvailableScreensRun getAvailableScreensTry
  dsimp only
  rw [if_neg h1, if_neg h2, if_neg h3, if_neg he1, if_neg he2, if_neg he3]
  exact ⟨rfl, rfl, rfl, rfl⟩

theorem c1_amended_witness :
    (takeScreenshot ⟨"plan9", none, none, "/tmp", 5, 6, true, "RAW", true, "RSZ",
        true, true, true, true, true⟩ "" ⟨none, none, none, none, none, none⟩).result =
      .error "Failed to capture screenshot: Unsupported platform: plan9"
    ∧ (takeScreenshot ⟨"plan9", none, none, "/tmp", 5, 6, true, "RAW", true, "RSZ",
        true, true, true, true, true⟩ "" ⟨none, none, none, none, none, none⟩).cmds = []
    ∧ (takeScreenshot ⟨"plan9", none, none, "/tmp", 5, 6, true, "RAW", true, "RSZ",
        true, true, true, true, true⟩ "" ⟨none, none, none, none, none, none⟩).exec = none
    ∧ getAvailableScreensRun ⟨"plan9", none, none⟩ = ([⟨1, "Main Display"⟩], []) :=
  c1_amended ⟨"plan9", none, none, "/tmp", 5, 6, true, "RAW", true, "RSZ",
      true, true, true, true, true⟩ ⟨"plan9", none, none⟩ ""
    ⟨none, none, none, none, none, none⟩
    (by decide) (by decide) (by decide) (by decide) (by decide) (by decide)

/-- C2 counterexample: a capture invocation on Platform C whose capture
command succeeds (creating the temp file) and whose subsequent file read
fails returns an error while the temp file created by the invocation is
still on disk — the claimed failure-path cleanup does not exist. -/
theorem c2_counterexample :
    (takeScreenshot ⟨"linux", none, none, "/tmp", 5, 6, true, "RAW", true, "RSZ",
        true, true, true, false, true⟩ "" ⟨none, none, none, none, none, none⟩).result =
      .error "Failed to capture screenshot: file read failed"
    ∧ (takeScreenshot ⟨"linux", none, none, "/tmp", 5, 6, true, "RAW", true, "RSZ",
        true, true, true, false, true⟩ "" ⟨none, none, none, none, none, none⟩).leftover =
      ["/tmp/screenshot-5.png"]
    ∧ (takeScreenshot ⟨"linux", none, none, "/tmp", 5, 6, true, "RAW", true, "RSZ",
        true, true, true, false, true⟩ "" ⟨none, none, none, none, none, none⟩).leftover ≠
      [] :=
  ⟨rfl, rfl, by decide⟩

/-- C2 amended: on every invocation that returns successfully no temporary
file created by the invocation remains on disk, and a failure of the
capture command itself leaves no file behind; but when a later step fails
after a temp file was created, the error is surfaced without any cleanup,
so the files created so far remain on disk. -/
theorem c2_amended (env : CaptureEnv) (url : String) (opts : CaptureOptions) :
    (∀ d, (takeScreenshot env url opts).result = .ok d →
      (takeScreenshot env url opts).leftover = [])
    ∧ (env.execOk = false → (takeScreenshot env url opts).leftover = []) := by
  constructor
  · intro d
    unfold takeScreenshot
    dsimp only
    repeat' split
    all_goals intro h
    all_goals first
      | exact execAndFinish_ok_leftover _ _ _ _ _ _ _ _ h
      | simp_all
  · intro hx
    unfold takeScreenshot
    dsimp only
    repeat' split
    all_goals first
      | exact execAndFinish_execFail_leftover _ _ _ _ _ _ _ hx
      | rfl

theorem c2_amended_witness :
    (takeScreenshot ⟨"linux", none, none, "/tmp", 5, 6, true, "RAW", true, "RSZ",
        true, true, true, true, true⟩ "" ⟨none, none, none, none, none, none⟩).leftover = []
    ∧ (takeScreenshot ⟨"linux", none, none, "/tmp", 5, 6, false, "RAW", true, "RSZ",
        true, true, true, true, true⟩ "" ⟨none, none, none, none, none, none⟩).leftover = [] :=
  ⟨(c2_amended ⟨"linux", none, none, "/tmp", 5, 6, true, "RAW", true, "RSZ",
      true, true, true, true, true⟩ "" ⟨none, none, none, none, none, none⟩).1
      "base64:RAW" rfl,
   (c2_amended ⟨"linux", none, none, "/tmp", 5, 6, false, "RAW", true, "RSZ",
      true, true, true, true, true⟩ "" ⟨none, none, none, none, none, none⟩).2 rfl⟩

/-- C3 counterexample: a display section whose lines carry two lines for
each of the three labels (type, resolution, name).  The claim says each
descriptor field comes from the earliest matching line (`TypeA`,
`111 x 222`, `NameA`); the parser's loop overwrites the field on every
matching line, so each field's value comes from the latest matching line
(`TypeB`, `333 x 444`, `NameB`). -/
theorem c3_counterexample :
    ((extractDisplayInfo ["Display Type: TypeA", "Display Type: TypeB",
        "Resolution: 111 x 222", "Resolution: 333 x 444",
        "Name: NameA", "Name: NameB"]).displayType = "TypeB"
      ∧ (extractDisplayInfo ["Display Type: TypeA", "Display Type: TypeB",
        "Resolution: 111 x 222", "Resolution: 333 x 444",
        "Name: NameA", "Name: NameB"]).displayType ≠ "TypeA")
    ∧ ((extractDisplayInfo ["Display Type: TypeA", "Display Type: TypeB",
        "Resolution: 111 x 222", "Resolution: 333 x 444",
        "Name: NameA", "Name: NameB"]).resolution = "333 x 444"
      ∧ (extractDisplayInfo ["Display Type: TypeA", "Display Type: TypeB",
        "Resolution: 111 x 222", "Resolution: 333 x 444",
        "Name: NameA", "Name: NameB"]).resolution ≠ "111 x 222")
    ∧ ((extractDisplayInfo ["Display Type: TypeA", "Display Type: TypeB",
        "Resolution: 111 x 222", "Resolution: 333 x 444",
        "Name: NameA", "Name: NameB"]).displayName = "NameB"
      ∧ (extractDisplayInfo ["Display Type: TypeA", "Display Type: TypeB",
        "Resolution: 111 x 222", "Resolution: 333 x 444",
        "Name: NameA", "Name: NameB"]).displayName ≠ "NameA") :=
  ⟨⟨rfl, by decide⟩, ⟨rfl, by decide⟩, ⟨rfl, by decide⟩⟩

theorem foldl_scanLine_resolution (post : List String) :
    ∀ st : DisplayInfo,
      (∀ x ∈ post, (jsIncludes x "Display Type:" || jsIncludes x "Type:") = true ∨
        jsIncludes x "Resolution:" = false) →
      (List.foldl scanLine st post).resolution = st.resolution := by
  induction post with
  | nil => intro st _; rfl
  | cons x xs ih =>
    intro st h
    have hx := h x (by simp)
    have hxs : ∀ y ∈ xs, (jsIncludes y "Display Type:" || jsIncludes y "Type:") = true ∨
        jsIncludes y "Resolution:" = false :=
      fun y hy => h y (List.mem_cons_of_mem x hy)
    rw [List.foldl_cons, ih _ hxs]
    unfold scanLine
    rcases hx with hx | hx
    · rw [if_pos hx]
    · repeat' split
      all_goals simp_all

theorem foldl_scanLine_displayType (post : List String) :
    ∀ st : DisplayInfo,
      (∀ x ∈ post, (jsIncludes x "Display Type:" || jsIncludes x "Type:") = false) →
      (List.foldl scanLine st post).displayType = st.displayType := by
  induction post with
  | nil => intro st _; rfl
  | cons x xs ih =>
    intro st h
    have hx := h x (by simp)
    have hxs : ∀ y ∈ xs, (jsIncludes y "Display Type:" || jsIncludes y "Type:") = false :=
      fun y hy => h y (List.mem_cons_of_mem x hy)
    rw [List.foldl_cons, ih _ hxs]
    unfold scanLine
    repeat' split
    all_goals simp_all

theorem foldl_scanLine_displayName (post : List String) :
    ∀ st : DisplayInfo,
      (∀ x ∈ post, (jsIncludes x "Display Type:" || jsIncludes x "Type:") = true ∨
        jsIncludes x "Resolution:" = true ∨ jsIncludes x "Name:" = false) →
      (List.foldl scanLine st post).displayName = st.displayName := by
  induction post with
  | nil => intro st _; rfl
  | cons x xs ih =>
    intro st h
    have hx := h x (by simp)
    have hxs : ∀ y ∈ xs, (jsIncludes y "Display Type:" || jsIncludes y "Type:") = true ∨
        jsIncludes y "Resolution:" = true ∨ jsIncludes y "Name:" = false :=
      fun y hy => h y (List.mem_cons_of_mem x hy)
    rw [List.foldl_cons, ih _ hxs]
    unfold scanLine
    repeat' split
    all_goals simp_all

/-- C3 amended: in the Platform A display-section parser each matching line
overwrites the field it matches, so for every section whose lines contain
two or more lines carrying the same label, the field's value in the
resulting descriptor comes from the LATEST such line, not the earliest —
for each of the three fields: the last line to reach the type branch
determines `displayType`, the last line to reach the resolution branch
determines `resolution`, and the last line to reach the name branch
determines `displayName`, whatever matching lines came before. -/
theorem c3_amended :
    (∀ pre post l,
      (jsIncludes l "Display Type:" || jsIncludes l "Type:") = true →
      (∀ x ∈ post, (jsIncludes x "Display Type:" || jsIncludes x "Type:") = false) →
      (extractDisplayInfo (pre ++ l :: post)).displayType = splitField l "Unknown")
    ∧ (∀ pre post l,
      jsIncludes l "Display Type:" = false →
      jsIncludes l "Type:" = false →
      jsIncludes l "Resolution:" = true →
      (∀ x ∈ post, (jsIncludes x "Display Type:" || jsIncludes x "Type:") = true ∨
        jsIncludes x "Resolution:" = false) →
      (extractDisplayInfo (pre ++ l :: post)).resolution = splitField l "")
    ∧ (∀ pre post l,
      jsIncludes l "Display Type:" = false →
      jsIncludes l "Type:" = false →
      jsIncludes l "Resolution:" = false →
      jsIncludes l "Name:" = true →
      (∀ x ∈ post, (jsIncludes x "Display Type:" || jsIncludes x "Type:") = true ∨
        jsIncludes x "Resolution:" = true ∨ jsIncludes x "Name:" = false) →
      (extractDisplayInfo (pre ++ l :: post)).displayName = splitField l "") := by
  refine ⟨?_, ?_, ?_⟩
  · intro pre post l hl hpost
    unfold extractDisplayInfo
    rw [List.foldl_append, List.foldl_cons]
    rw [foldl_scanLine_displayType post _ hpost]
    unfold scanLine
    rw [if_pos hl]
  · intro pre post l h1 h2 h3 hpost
    unfold extractDisplayInfo
    rw [List.foldl_append, List.foldl_cons]
    rw [foldl_scanLine_resolution post _ hpost]
    unfold scanLine
    rw [if_neg (by simp [h1, h2]), if_pos h3]
  · intro pre post l h1 h2 h3 h4 hpost
    unfold extractDisplayInfo
    rw [List.foldl_append, List.foldl_cons]
    rw [foldl_scanLine_displayName post _ hpost]
    unfold scanLine
    rw [if_neg (by simp [h1, h2]), if_neg (by simp [h3]), if_pos h4]

theorem c3_amended_witness :
    (extractDisplayInfo
      ["Display Type: TypeA", "Display Type: TypeB", "Name: NameC"]).displayType =
      splitField "Display Type: TypeB" "Unknown"
    ∧ (extractDisplayInfo
      ["Resolution: 111 x 222", "Resolution: 333 x 444", "Name: NameC"]).resolution =
      splitField "Resolution: 333 x 444" ""
    ∧ (extractDisplayInfo
      ["Name: NameA", "Name: NameB", "Resolution: 999 x 999"]).displayName =
      splitField "Name: NameB" "" :=
  ⟨c3_amended.1 ["Display Type: TypeA"] ["Name: NameC"] "Display Type: TypeB"
      (by decide) (by decide),
   c3_amended.2.1 ["Resolution: 111 x 222"] ["Name: NameC"] "Resolution: 333 x 444"
      (by decide) (by decide) (by decide) (by decide),
   c3_amended.2.2 ["Name: NameA"] ["Resolution: 999 x 999"] "Name: NameB"
      (by decide) (by decide) (by decide) (by decide) (by decide)⟩

/-- C4: the resize stage runs exactly when the resolved `screenId` is 2:
with any other id no `sharp` call is made and a successful run returns the
raw captured bytes; with id 2 (and a capture command that ran), exactly one
`sharp` call is made — target canvas 819×1456, fit `contain`, opaque white
background — and a successful run returns the resized file's bytes. -/
theorem c4_resize_policy (env : CaptureEnv) (url : String) (opts : CaptureOptions) :
    (resolveScreenId opts.screenId ≠ 2 →
      (takeScreenshot env url opts).sharpCalls = [])
    ∧ (resolveScreenId opts.screenId = 2 → env.execOk = true →
        (env.platform = "darwin" ∨ env.platform = "win32" ∨ env.platform = "linux") →
        (takeScreenshot env url opts).sharpCalls =
          [⟨capturePath env, resizedPathOf env, 819, 1456, "contain", 255, 255, 255, 1⟩])
    ∧ (∀ d, (takeScreenshot env url opts).result = .ok d →
        (resolveScreenId opts.screenId = 2 → d = base64Encode env.resizedBytes)
        ∧ (resolveScreenId opts.screenId ≠ 2 → d = base64Encode env.rawBytes)) := by
  refine ⟨?_, ?_, ?_⟩
  · intro h
    unfold takeScreenshot
    dsimp only
    repeat' split
    all_goals first
      | exact execAndFinish_sharp_ne2 _ _ _ _ _ _ _ h
      | rfl
  · intro h2 hx hplat
    unfold takeScreenshot
    dsimp only
    repeat' split
    all_goals first
      | exact execAndFinish_sharp_2 _ _ _ _ _ _ _ h2 hx
      | simp_all
  · intro d
    unfold takeScreenshot
    dsimp only
    repeat' split
    all_goals intro hres
    all_goals first
      | exact ⟨fun h2 => execAndFinish_ok_val_2 _ _ _ _ _ _ _ _ h2 hres,
          fun hn => execAndFinish_ok_val_ne2 _ _ _ _ _ _ _ _ hn hres⟩
      | simp_all

theorem c4_resize_policy_witness :
    (takeScreenshot ⟨"linux", none, none, "/tmp", 5, 6, true, "RAW", true, "RSZ",
        true, true, true, true, true⟩ "" ⟨none, none, none, none, none, some 1⟩).sharpCalls = []
    ∧ (takeScreenshot ⟨"linux", none, none, "/tmp", 5, 6, true, "RAW", true, "RSZ",
        true, true, true, true, true⟩ "" ⟨none, none, none, none, none, some 2⟩).sharpCalls =
      [⟨"/tmp/screenshot-5.png", "/tmp/screenshot-resized-6.png", 819, 1456, "contain",
        255, 255, 255, 1⟩]
    ∧ ("base64:RSZ" = base64Encode "RSZ") :=
  ⟨(c4_resize_policy ⟨"linux", none, none, "/tmp", 5, 6, true, "RAW", true, "RSZ",
      true, true, true, true, true⟩ "" ⟨none, none, none, none, none, some 1⟩).1 (by decide),
   (c4_resize_policy ⟨"linux", none, none, "/tmp", 5, 6, true, "RAW", true, "RSZ",
      true, true, true, true, true⟩ "" ⟨none, none, none, none, none, some 2⟩).2.1
      rfl rfl (Or.inr (Or.inr rfl)),
   ((c4_resize_policy ⟨"linux", none, none, "/tmp", 5, 6, true, "RAW", true, "RSZ",
      true, true, true, true, true⟩ "" ⟨none, none, none, none, none, some 2⟩).2.2
      "base64:RSZ" rfl).1 rfl⟩

/-- C5: on Platform A, when the resolved `screenId` occurs among the
enumerated descriptors or equals 1, the executed capture command targets
exactly that display with the silent flag and no warning is logged;
otherwise the warning is logged and the executed command captures the
primary display (no `-D` flag), and the invocation still succeeds when the
remaining steps succeed — the invalid id itself causes no failure. -/
theorem c5_darwin_targeting (env : CaptureEnv) (url : String) (opts : CaptureOptions)
    (hplat : env.platform = "darwin") :
    ((getAvailableScreens (enumEnvOf env)).any
        (fun s => s.id == resolveScreenId opts.screenId) = true ∨
      resolveScreenId opts.screenId = 1 →
      (takeScreenshot env url opts).exec =
        some ("screencapture -D " ++ toString (resolveScreenId opts.screenId) ++ " -x \""
          ++ capturePath env ++ "\"", resolveTimeout opts.timeout)
      ∧ (takeScreenshot env url opts).warned = false)
    ∧ (¬((getAvailableScreens (enumEnvOf env)).any
        (fun s => s.id == resolveScreenId opts.screenId) = true ∨
      resolveScreenId opts.screenId = 1) →
      (takeScreenshot env url opts).exec =
        some ("screencapture -x \"" ++ capturePath env ++ "\"", resolveTimeout opts.timeout)
      ∧ (takeScreenshot env url opts).warned = true
      ∧ (env.execOk = true → env.readCapturedOk = true → env.unlinkFinalOk = true →
          resolveScreenId opts.screenId ≠ 2 →
          (takeScreenshot env url opts).result = .ok (base64Encode env.rawBytes))) := by
  unfold getAvailableScreens
  unfold takeScreenshot
  dsimp only
  rw [if_pos hplat]
  constructor
  · intro hvalid
    rw [if_pos hvalid]
    exact ⟨execAndFinish_exec _ _ _ _ _ _ _, execAndFinish_warned _ _ _ _ _ _ _⟩
  · intro hinvalid
    rw [if_neg hinvalid]
    refine ⟨execAndFinish_exec _ _ _ _ _ _ _, execAndFinish_warned _ _ _ _ _ _ _, ?_⟩
    intro hx hrd hun hne2
    simp [execAndFinish, hx, hrd, hun, hne2]

theorem c5_darwin_targeting_witness :
    (takeScreenshot ⟨"darwin", none, none, "/tmp", 5, 6, true, "RAW", true, "RSZ",
        true, true, true, true, true⟩ "" ⟨none, none, none, none, none, some 1⟩).exec =
      some ("screencapture -D 1 -x \"/tmp/screenshot-5.png\"", 0)
    ∧ (takeScreenshot ⟨"darwin", none, none, "/tmp", 5, 6, true, "RAW", true, "RSZ",
        true, true, true, true, true⟩ "" ⟨none, none, none, none, none, some 99⟩).exec =
      some ("screencapture -x \"/tmp/screenshot-5.png\"", 0)
    ∧ (takeScreenshot ⟨"darwin", none, none, "/tmp", 5, 6, true, "RAW", true, "RSZ",
        true, true, true, true, true⟩ "" ⟨none, none, none, none, none, some 99⟩).warned = true
    ∧ (takeScreenshot ⟨"darwin", none, none, "/tmp", 5, 6, true, "RAW", true, "RSZ",
        true, true, true, true, true⟩ "" ⟨none, none, none, none, none, some 99⟩).result =
      .ok (base64Encode "RAW") :=
  ⟨((c5_darwin_targeting ⟨"darwin", none, none, "/tmp", 5, 6, true, "RAW", true, "RSZ",
      true, true, true, true, true⟩ "" ⟨none, none, none, none, none, some 1⟩ rfl).1
      (Or.inr rfl)).1,
   ((c5_darwin_targeting ⟨"darwin", none, none, "/tmp", 5, 6, true, "RAW", true, "RSZ",
      true, true, true, true, true⟩ "" ⟨none, none, none, none, none, some 99⟩ rfl).2
      (by decide)).1,
   ((c5_darwin_targeting ⟨"darwin", none, none, "/tmp", 5, 6, true, "RAW", true, "RSZ",
      true, true, true, true, true⟩ "" ⟨none, none, none, none, none, some 99⟩ rfl).2
      (by decide)).2.1,
   ((c5_darwin_targeting ⟨"darwin", none, none, "/tmp", 5, 6, true, "RAW", true, "RSZ",
      true, true, true, true, true⟩ "" ⟨none, none, none, none, none, some 99⟩ rfl).2
      (by decide)).2.2 rfl rfl rfl (by decide)⟩

/-- C6 counterexample: on Platform A with an introspection output whose
structured parse yields the single descriptor `{id: 1, description: "LCD"}`
and a rescan command that fails (`grepOutput = none` models the rescan
child process throwing — an internal failure raised during introspection),
the enumerator returns the already-built list `[{id: 1, "LCD"}]`, not the
synthetic `[{id: 1, "Main Display"}]` the claim requires for every internal
failure: the rescan failure is swallowed by the inner catch. -/
theorem c6_counterexample :
    getAvailableScreens ⟨"darwin", some "x\nColor LCD:\n Display Type: LCD", none⟩ =
      [⟨1, "LCD"⟩]
    ∧ getAvailableScreens ⟨"darwin", some "x\nColor LCD:\n Display Type: LCD", none⟩ ≠
      [⟨1, "Main Display"⟩] :=
  ⟨rfl, by decide⟩

/-- C6 amended: the enumerator never propagates an error (it is total and
always returns a descriptor list), and every failure that reaches its outer
handler — the introspection command failing on Platform A, or an
unrecognized platform — yields exactly `[{id: 1, description: "Main
Display"}]`; but a failure of the secondary resolution-rescan command is
caught by an inner handler and the already-built descriptor list is
returned unchanged instead. -/
theorem c6_amended (env : EnumEnv) :
    (env.platform = "darwin" → env.profilerOutput = none →
      getAvailableScreens env = [⟨1, "Main Display"⟩])
    ∧ (env.platform ≠ "darwin" → env.platform ≠ "win32" → env.platform ≠ "linux" →
      getAvailableScreens env = [⟨1, "Main Display"⟩]) := by
  constructor
  · intro hp hn
    unfold getAvailableScreens getAvailableScreensRun getAvailableScreensTry
    rw [if_pos hp, hn]
  · intro h1 h2 h3
    unfold getAvailableScreens getAvailableScreensRun getAvailableScreensTry
    rw [if_neg h1, if_neg h2, if_neg h3]

theorem c6_amended_witness :
    getAvailableScreens ⟨"darwin", none, none⟩ = [⟨1, "Main Display"⟩]
    ∧ getAvailableScreens ⟨"beos", none, none⟩ = [⟨1, "Main Display"⟩] :=
  ⟨(c6_amended ⟨"darwin", none, none⟩).1 rfl rfl,
   (c6_amended ⟨"beos", none, none⟩).2 (by decide) (by decide) (by decide)⟩

theorem buildDisplays_length (s : List String) (k : Nat) :
    (buildDisplays s k).length = s.length := by
  induction s generalizing k with
  | nil => rfl
  | cons a t ih => simp [buildDisplays, ih]

theorem buildDisplays_get_id (s : List String) (k i : Nat)
    (h : i < (buildDisplays s k).length) :
    ((buildDisplays s k).get ⟨i, h⟩).id = (k : Int) + i + 1 := by
  induction s generalizing k i with
  | nil => simp [buildDisplays] at h
  | cons a t ih =>
    cases i with
    | zero => simp [buildDisplays]
    | succ j =>
      have h' : j < (buildDisplays t (k + 1)).length := by
        simpa [buildDisplays, Nat.succ_lt_succ_iff] using h
      have e : ((buildDisplays (a :: t) k).get ⟨j + 1, h⟩) =
          (buildDisplays t (k + 1)).get ⟨j, h'⟩ := rfl
      rw [e, ih (k + 1) j h']
      push_cast
      ring

theorem rebuildFromResolutions_length (s : List String) (k : Nat) :
    (rebuildFromResolutions s k).length = s.length := by
  induction s generalizing k with
  | nil => rfl
  | cons a t ih => simp [rebuildFromResolutions, ih]

theorem rebuildFromResolutions_get (s : List String) (k i : Nat)
    (h : i < (rebuildFromResolutions s k).length) :
    (rebuildFromResolutions s k).get ⟨i, h⟩ =
      ⟨(k : Int) + i + 1,
        if k + i = 0 then "Main Display (" ++ splitField (s.getD i "") "" ++ ")"
        else "External Display " ++ toString (k + i) ++ " (" ++
          splitField (s.getD i "") "" ++ ")"⟩ := by
  induction s generalizing k i with
  | nil => simp [rebuildFromResolutions] at h
  | cons r t ih =>
    cases i with
    | zero => simp [rebuildFromResolutions, List.getD]
    | succ j =>
      have h' : j < (rebuildFromResolutions t (k + 1)).length := by
        simpa [rebuildFromResolutions, Nat.succ_lt_succ_iff] using h
      have e : ((rebuildFromResolutions (r :: t) k).get ⟨j + 1, h⟩) =
          (rebuildFromResolutions t (k + 1)).get ⟨j, h'⟩ := rfl
      rw [e, ih (k + 1) j h']
      have e2 : (k + 1) + j = k + (j + 1) := by omega
      congr 1
      · push_cast
        ring
      · rw [e2]
        simp [List.getD]

/-- C7: in Platform A enumeration, when the call reaches the structured
parse (the raw-output check and the section split both found data) and that
parse yields at most one display, the rescan command is issued; if and only
if its output contains more than one resolution line, the previously built
list is discarded and rebuilt purely from resolution-line order — index 0
labeled `Main Display (resolution)`, every other index `i` labeled
`External Display i (resolution)`, ids assigned as the 1-based sequential
integers `i + 1`; with at most one resolution line the previously built
list is returned unchanged. -/
theorem c7_rescan_rebuild (stdout g : String)
    (hdata : ((jsSplit stdout "Graphics/Displays:").filter
      (fun s => (jsTrim s).length > 0)).length ≠ 0)
    (hsec : (darwinSections stdout).length ≠ 0)
    (hle : (darwinStructuredDisplays stdout).length ≤ 1) :
    (darwinEnumerate stdout (some g)).2 = [(grepCmd, 0)]
    ∧ ((grepResolutionLines g).length > 1 →
        (darwinEnumerate stdout (some g)).1 =
          rebuildFromResolutions (grepResolutionLines g) 0
        ∧ ∀ i (h : i < (darwinEnumerate stdout (some g)).1.length),
            (darwinEnumerate stdout (some g)).1.get ⟨i, h⟩ =
              ⟨(i : Int) + 1,
                if i = 0 then
                  "Main Display (" ++ splitField ((grepResolutionLines g).getD i "") "" ++ ")"
                else
                  "External Display " ++ toString i ++ " (" ++
                    splitField ((grepResolutionLines g).getD i "") "" ++ ")"⟩)
    ∧ (¬(grepResolutionLines g).length > 1 →
        (darwinEnumerate stdout (some g)).1 = darwinStructuredDisplays stdout) := by
  unfold darwinEnumerate
  dsimp only
  rw [if_neg hdata, if_neg hsec, if_pos hle]
  refine ⟨?_, ?_, ?_⟩
  · split <;> rfl
  · intro hres
    rw [if_pos hres]
    refine ⟨rfl, ?_⟩
    intro i h
    rw [rebuildFromResolutions_get]
    simp
  · intro hres
    rw [if_neg hres]

theorem c7_rescan_rebuild_witness :
    (darwinEnumerate "x\nColor LCD:\n Display Type: LCD"
      (some "Resolution: 1440 x 900\nResolution: 1920 x 1080")).2 = [(grepCmd, 0)]
    ∧ (darwinEnumerate "x\nColor LCD:\n Display Type: LCD"
      (some "Resolution: 1440 x 900\nResolution: 1920 x 1080")).1 =
        rebuildFromResolutions
          (grepResolutionLines "Resolution: 1440 x 900\nResolution: 1920 x 1080") 0 :=
  ⟨(c7_rescan_rebuild "x\nColor LCD:\n Display Type: LCD"
      "Resolution: 1440 x 900\nResolution: 1920 x 1080"
      (by decide) (by decide) (by decide)).1,
   ((c7_rescan_rebuild "x\nColor LCD:\n Display Type: LCD"
      "Resolution: 1440 x 900\nResolution: 1920 x 1080"
      (by decide) (by decide) (by decide)).2.1 (by decide)).1⟩

theorem screens_darwin_none (env : EnumEnv) (hp : env.platform = "darwin")
    (hn : env.profilerOutput = none) :
    getAvailableScreens env = [⟨1, "Main Display"⟩] := by
  unfold getAvailableScreens getAvailableScreensRun getAvailableScreensTry
  rw [if_pos hp, hn]

theorem screens_darwin_some (env : EnumEnv) (stdout : String)
    (hp : env.platform = "darwin") (hs : env.profilerOutput = some stdout) :
    getAvailableScreens env = (darwinEnumerate stdout env.grepOutput).1 := by
  unfold getAvailableScreens getAvailableScreensRun getAvailableScreensTry
  rw [if_pos hp, hs]

theorem darwinEnumerate_fst_cases (stdout : String) (go : Option String) :
    (darwinEnumerate stdout go).1 = [⟨1, "Main Display"⟩]
    ∨ (darwinEnumerate stdout go).1 = darwinStructuredDisplays stdout
    ∨ ∃ res, 1 < res.length ∧
        (darwinEnumerate stdout go).1 = rebuildFromResolutions res 0 := by
  unfold darwinEnumerate
  dsimp only
  repeat' split
  all_goals first
    | exact Or.inl rfl
    | exact Or.inr (Or.inl rfl)
    | exact Or.inr (Or.inr ⟨_, by assumption, rfl⟩)

theorem darwinStructuredDisplays_spec (stdout : String) :
    darwinStructuredDisplays stdout ≠ []
    ∧ ∀ i (h : i < (darwinStructuredDisplays stdout).length),
        ((darwinStructuredDisplays stdout).get ⟨i, h⟩).id = (i : Int) + 1 := by
  by_cases hc : (buildDisplays (darwinSections stdout) 0).length = 0
  · have he : darwinStructuredDisplays stdout = [⟨1, "Main Display"⟩] := by
      unfold darwinStructuredDisplays
      rw [if_pos hc]
    rw [he]
    refine ⟨by simp, ?_⟩
    intro i h
    have h0 : i = 0 := Nat.lt_one_iff.mp (by simpa using h)
    subst h0
    rfl
  · have he : darwinStructuredDisplays stdout = buildDisplays (darwinSections stdout) 0 := by
      unfold darwinStructuredDisplays
      rw [if_neg hc]
    rw [he]
    refine ⟨?_, ?_⟩
    · intro hnil
      apply hc
      rw [hnil]
      rfl
    · intro i h
      rw [buildDisplays_get_id]
      simp

theorem rebuildFromResolutions_spec (res : List String) (hlen : 1 < res.length) :
    rebuildFromResolutions res 0 ≠ []
    ∧ ∀ i (h : i < (rebuildFromResolutions res 0).length),
        ((rebuildFromResolutions res 0).get ⟨i, h⟩).id = (i : Int) + 1 := by
  refine ⟨?_, ?_⟩
  · intro hnil
    have hl := rebuildFromResolutions_length res 0
    rw [hnil] at hl
    simp at hl
    omega
  · intro i h
    rw [rebuildFromResolutions_get]
    simp

theorem goodList_lemma (l : List ScreenDescriptor) (hne : l ≠ [])
    (hid : ∀ i (h : i < l.length), (l.get ⟨i, h⟩).id = (i : Int) + 1) :
    l ≠ [] ∧ (∀ d ∈ l, 0 ≤ d.id) ∧
      (∀ i (h : i < l.length), (l.get ⟨i, h⟩).id = (i : Int) + 1) := by
  refine ⟨hne, ?_, hid⟩
  intro d hd
  rcases List.mem_iff_get.mp hd with ⟨n, rfl⟩
  rw [hid n n.isLt]
  omega

/-- C10: on every platform and every outcome, `getAvailableScreens` returns
a non-empty descriptor list whose ids are all non-negative; on Platform A
the ids are moreover the 1-based sequential integers `i + 1` in list
order (Platforms B and C return the single id-0 placeholder, and every
fallback returns the single id-1 synthetic descriptor). -/
theorem c10_enumeration_invariants (env : EnumEnv) :
    getAvailableScreens env ≠ []
    ∧ (∀ d ∈ getAvailableScreens env, 0 ≤ d.id)
    ∧ (env.platform = "darwin" →
        ∀ i (h : i < (getAvailableScreens env).length),
          ((getAvailableScreens env).get ⟨i, h⟩).id = (i : Int) + 1) := by
  have fallback_spec : ∀ i (h : i < ([⟨1, "Main Display"⟩] : List ScreenDescriptor).length),
      (([⟨1, "Main Display"⟩] : List ScreenDescriptor).get ⟨i, h⟩).id = (i : Int) + 1 := by
    intro i h
    have h0 : i = 0 := Nat.lt_one_iff.mp (by simpa using h)
    subst h0
    rfl
  by_cases hp : env.platform = "darwin"
  · cases hpo : env.profilerOutput with
    | none =>
      rw [screens_darwin_none env hp hpo]
      obtain ⟨a, b, c⟩ := goodList_lemma _ (by simp) fallback_spec
      exact ⟨a, b, fun _ => c⟩
    | some stdout =>
      rw [screens_darwin_some env stdout hp hpo]
      rcases darwinEnumerate_fst_cases stdout env.grepOutput with hc | hc | ⟨res, hlen, hc⟩ <;>
        rw [hc]
      · obtain ⟨a, b, c⟩ := goodList_lemma _ (by simp) fallback_spec
        exact ⟨a, b, fun _ => c⟩
      · obtain ⟨hne, hid⟩ := darwinStructuredDisplays_spec stdout
        obtain ⟨a, b, c⟩ := goodList_lemma _ hne hid
        exact ⟨a, b, fun _ => c⟩
      · obtain ⟨hne, hid⟩ := rebuildFromResolutions_spec res hlen
        obtain ⟨a, b, c⟩ := goodList_lemma _ hne hid
        exact ⟨a, b, fun _ => c⟩
  · by_cases hw : env.platform = "win32"
    · have hres : getAvailableScreens env = [placeholderScreen] := by
        unfold getAvailableScreens getAvailableScreensRun getAvailableScreensTry
        rw [if_neg hp, if_pos hw]
      rw [hres]
      refine ⟨by simp, ?_, fun hd => absurd hd hp⟩
      intro d hd
      rw [List.mem_singleton] at hd
      subst hd
      decide
    · by_cases hl : env.platform = "linux"
      · have hres : getAvailableScreens env = [placeholderScreen] := by
          unfold getAvailableScreens getAvailableScreensRun getAvailableScreensTry
          rw [if_neg hp, if_neg hw, if_pos hl]
        rw [hres]
        refine ⟨by simp, ?_, fun hd => absurd hd hp⟩
        intro d hd
        rw [List.mem_singleton] at hd
        subst hd
        decide
      · have hres : getAvailableScreens env = [⟨1, "Main Display"⟩] := by
          unfold getAvailableScreens getAvailableScreensRun getAvailableScreensTry
          rw [if_neg hp, if_neg hw, if_neg hl]
        rw [hres]
        obtain ⟨a, b, c⟩ := goodList_lemma _ (by simp) fallback_spec
        exact ⟨a, b, fun _ => c⟩

theorem c10_enumeration_invariants_witness :
    getAvailableScreens ⟨"darwin", some "x\nColor LCD:\n Display Type: LCD", none⟩ ≠ []
    ∧ (0 : Int) ≤ (ScreenDescriptor.mk 1 "LCD").id
    ∧ ((getAvailableScreens
        ⟨"darwin", some "x\nColor LCD:\n Display Type: LCD", none⟩).get
          ⟨0, by decide⟩).id = (0 : Int) + 1 :=
  ⟨(c10_enumeration_invariants
      ⟨"darwin", some "x\nColor LCD:\n Display Type: LCD", none⟩).1,
   (c10_enumeration_invariants
      ⟨"darwin", some "x\nColor LCD:\n Display Type: LCD", none⟩).2.1
      ⟨1, "LCD"⟩ (by decide),
   (c10_enumeration_invariants
      ⟨"darwin", some "x\nColor LCD:\n Display Type: LCD", none⟩).2.2 rfl 0 (by decide)⟩
